import Mathlib

/--
Verification development for `superset/common/query_context.py` (class
`QueryContext`).  The Python file is shallowly embedded below: pure helpers
become Lean functions, the stateful body of `get_df_payload` becomes explicit
state passing, Python exceptions become `Except PyExc`, and the external
collaborators (pandas, the cache store, the DAOs, `normalize_dttm_col`,
`exec_post_processing`, ...) become function-valued fields of an `Env`
record, universally quantified in the theorems.
-/
def sourceFile : String := "superset/common/query_context.py"

/-- Python exceptions that flow through `query_context.py`.
`validationError` is `QueryObjectValidationError`, `cacheLoadError` is
`CacheLoadError` (both subclasses of `SupersetException`); `attributeError`
and `keyError` are the builtin `AttributeError` / `KeyError`; `otherError`
stands for any other `Exception`. -/
inductive PyExc where
  | validationError (msg : String)
  | cacheLoadError (msg : String)
  | attributeError (msg : String)
  | keyError (key : String)
  | otherError (msg : String)
deriving DecidableEq

/-- Python `str(exception)`: the carried message (for `KeyError`, the key). -/
def PyExc.str : PyExc → String
  | .validationError m => m
  | .cacheLoadError m => m
  | .attributeError m => m
  | .keyError k => k
  | .otherError m => m

/-- `isinstance(ex, SupersetException)`: `QueryObjectValidationError` and
`CacheLoadError` derive from `SupersetException`; the builtins do not. -/
def PyExc.isSupersetException : PyExc → Bool
  | .validationError _ => true
  | .cacheLoadError _ => true
  | _ => false

/-- `superset.utils.core.QueryStatus` string constants; only SUCCESS and
FAILED are distinguished by `query_context.py`, other members are `other`. -/
inductive QueryStatus where
  | success
  | failed
  | other (s : String)
deriving DecidableEq

/-- pandas dtype of one column, as inspected by `df_metrics_to_num`
(`dtype.type == np.object_`). -/
inductive Dtype where
  | object
  | int64
  | float64
  | datetime
  | otherDtype (s : String)
deriving DecidableEq

/-- A pandas DataFrame, abstracted to exactly what `query_context.py`
inspects: the column names with their dtypes (`df.dtypes.items()`), and the
number of rows (`len(df.index)`).  Values are never read by the embedded
code, only transformed by collaborator functions. -/
structure DataFrame where
  cols : List (String × Dtype)
  nrows : Nat
deriving DecidableEq

/-- `pd.DataFrame()`: the fresh empty frame `get_df_payload` starts from. -/
def emptyDataFrame : DataFrame := { cols := [], nrows := 0 }

/-- `df.empty` for our frame model (true when an axis has length zero). -/
def DataFrame.isEmpty (df : DataFrame) : Bool :=
  df.nrows == 0 || df.cols.isEmpty

/-- Payload stored under one layer name in the merged annotation mapping:
either the native-layer record set `{columns, records}` or a derived
(visualization) data payload; the latter is opaque to `query_context.py`
and kept as a string blob. -/
inductive AnnPayload where
  | native (columns : List String) (records : List (List (String × String)))
  | viz (data : String)
deriving DecidableEq

/-- A Python dict keyed by layer name (insertion ordered). -/
def AnnDict : Type := List (String × AnnPayload)

instance : DecidableEq AnnDict := inferInstanceAs (DecidableEq (List (String × AnnPayload)))

/-- Python dict assignment `d[k] = v`: replace in place when the key is
present, append otherwise (insertion order preserved). -/
def dictSet {α : Type} (d : List (String × α)) (k : String) (v : α) :
    List (String × α) :=
  if d.any (fun p => p.1 == k) then
    d.map (fun p => if p.1 == k then (k, v) else p)
  else d ++ [(k, v)]

/-- The keys of a Python dict, in order. -/
def dictKeys {α : Type} (d : List (String × α)) : List String :=
  d.map Prod.fst

/-- Python dict lookup `d.get(k)`. -/
def dictLookup {α : Type} (d : List (String × α)) (k : String) : Option α :=
  (d.find? (fun p => p.1 == k)).map Prod.snd

/-- One row of a native annotation layer, with the five columns read by
`get_native_annotation_data` via `getattr`. -/
structure AnnRow where
  start_dttm : String
  end_dttm : String
  short_descr : String
  long_descr : String
  json_metadata : String
deriving DecidableEq

/-- An annotation layer record returned by `AnnotationLayerDAO.find_by_ids`;
the source accesses `layer_object.id` and `layer_object.annotation` (the
row collection, renamed `annotation_rows` here). -/
structure LayerObject where
  id : Nat
  annotation_rows : List AnnRow
deriving DecidableEq

/-- One entry of `query_obj.annotation_layers`: the dict fields
`sourceType`, `value` (layer / chart id) and `name` read by the source. -/
structure AnnotationLayerRef where
  sourceType : String
  value : Nat
  name : String
deriving DecidableEq

/-- A chart record from `ChartDAO.find_by_id`, with the fields
`form_data`, `datasource.type` and `datasource.id` that
`get_viz_annotation_data` reads (`form_data` kept opaque). -/
structure Chart where
  form_data : String
  datasource_type : String
  datasource_id : Nat
deriving DecidableEq

/-- A metric descriptor inside `query_obj.metrics`; opaque to
`query_context.py`, which only hands the list to the collaborator
`get_column_names_from_metrics`. -/
def Metric : Type := String

instance : DecidableEq Metric := inferInstanceAs (DecidableEq String)

/-- The slice of `QueryObject` that `query_context.py` reads.
`exec_post_processing` (defined in `query_object.py`, outside this file) is
the collaborator running the user-requested post-processing operations. -/
structure QueryObject where
  granularity : Option String
  time_shift : Option String
  columns : List String
  groupby : List String
  metrics : Option (List Metric)
  metric_names : List String
  annotation_layers : List AnnotationLayerRef
  exec_post_processing : DataFrame → Except PyExc DataFrame

/-- A column descriptor returned by `datasource.get_column`, carrying the
per-column date-format hint `python_date_format`. -/
structure ColumnDesc where
  python_date_format : Option String
deriving DecidableEq

/-- The owning database connection of a SQL datasource (only its
`cache_timeout` is read). -/
structure Database where
  cache_timeout : Option Int
deriving DecidableEq

/-- The `result.df / result.query / result.status / result.error_message`
record returned by the datasource collaborator `datasource.query`, also the
shape of the dict `get_query_result` returns. -/
structure DSResult where
  df : DataFrame
  query : String
  status : QueryStatus
  error_message : Option String

/-- The datasource collaborator (`BaseDatasource` interface): descriptive
metadata plus the `query` call.  `database := none` models a datasource
class without a `database` attribute (`hasattr(self.datasource, "database")`
false, e.g. a Druid datasource). -/
structure Datasource where
  type : String
  database : Option Database
  cache_timeout : Option Int
  column_names : List String
  offset : Int
  uid : String
  get_column : String → Option ColumnDesc
  query : QueryObject → Except PyExc DSResult

/-- The fields of `QueryContext` used by the verified methods (the
`queries` list, `result_type` and `result_format` play no role in the
per-query payload path and are omitted). -/
structure QueryContext where
  datasource : Datasource
  force : Bool
  custom_cache_timeout : Option Int

/-- Class variable `QueryContext.enforce_numerical_metrics = True`. -/
def enforce_numerical_metrics : Bool := true

/-- `superset.utils.core.DTTM_ALIAS`, the reserved synthetic time-column
name. -/
def DTTM_ALIAS : String := "__timestamp"

/-- A value stored in the data cache under a per-query key: a Python dict
whose present keys are listed in `keys`; the typed fields give the value
stored under the corresponding key when it is present. -/
structure CacheEntry where
  keys : List String
  df : DataFrame
  query : String
  annotation_data : AnnDict
  dttm : Int
deriving DecidableEq

/-- Observable interactions of one `get_df_payload` run with the outside
world, in order: the cache read, the datasource query, the four pipeline
stages of `get_query_result`, the annotation fetch, and the cache write
(with the stored table, source text, annotation data and timeout). -/
inductive Event where
  | cacheRead
  | dsQuery
  | normalizeDttm (fmt : Option String)
  | metricsToNum
  | replaceInf
  | postProcess
  | annotationFetch
  | cacheWrite (key : String) (df : DataFrame) (query : String)
      (annotation_data : AnnDict) (timeout : Int)
deriving DecidableEq

/-- The ambient collaborators of `query_context.py`: process configuration,
the cache store, the DAOs, and the library functions it calls. -/
structure Env where
  /-- `config["CACHE_DEFAULT_TIMEOUT"]`. -/
  cache_default_timeout : Int
  /-- Truthiness of `cache_manager.data_cache`. -/
  data_cache_configured : Bool
  /-- `cache_manager.data_cache.get`. -/
  data_cache_get : String → Option CacheEntry
  /-- Result of `self.query_cache_key(query_obj)` (the key derivation lives
  in `query_object.py`, outside this file). -/
  query_cache_key : Option String
  /-- `superset.utils.core.get_column_names_from_metrics`. -/
  get_column_names_from_metrics : List Metric → List String
  /-- `superset.utils.core.normalize_dttm_col` applied to
  `(df, timestamp_format, offset, time_shift)`. -/
  normalize_dttm_col : DataFrame → Option String → Int → Option String →
      Except PyExc DataFrame
  /-- `series.infer_objects()` on the column with the given name and dtype:
  the soft numeric conversion yields the new dtype. -/
  infer_objects : String → Dtype → Dtype
  /-- `df.replace([np.inf, -np.inf], np.nan)`. -/
  replace_inf_nan : DataFrame → DataFrame
  /-- Text captured by `superset.utils.core.get_stacktrace()`. -/
  captured_stacktrace : String
  /-- `AnnotationLayerDAO.find_by_ids`. -/
  find_by_ids : List Nat → List LayerObject
  /-- `ChartDAO.find_by_id`. -/
  chart_find_by_id : Nat → Option Chart
  /-- `get_viz(...).get_payload()["data"]` for the chart's datasource type
  and id, its form data, and the force flag. -/
  viz_payload : String → Nat → String → Bool → Except PyExc String

/-- Python truthiness of an `Optional[str]` (`None` and `""` are falsy). -/
def optStrTruthy : Option String → Bool
  | none => false
  | some s => !s.isEmpty

/-- Property `QueryContext.cache_timeout` (lines 185-196), embedded with
Python evaluation semantics.  The source condition is
`(hasattr(self.datasource, "database") and self.datasource.database.cache_timeout) is not None`:
when the datasource has no `database` attribute the parenthesized value is
`False`, `False is not None` is `True`, and the `return` expression then
dereferences the missing attribute, raising `AttributeError`; when the
attribute exists the parenthesized value is the database timeout itself,
so the branch is taken exactly when that timeout is not `None`. -/
def cache_timeout (ctx : QueryContext) (env : Env) : Except PyExc Int :=
  match ctx.custom_cache_timeout with
  | some t => .ok t
  | none =>
    match ctx.datasource.cache_timeout with
    | some t => .ok t
    | none =>
      match ctx.datasource.database with
      | none =>
          .error (.attributeError "datasource has no attribute database")
      | some db =>
          match db.cache_timeout with
          | some t => .ok t
          | none => .ok env.cache_default_timeout

/-- `superset.utils.core.error_msg_from_exception`.  Modelled from the
spec: the translated validation error carries "the original error's
message" (section 4.3); the helper itself lives outside this file. -/
def error_msg_from_exception (e : PyExc) : String := e.str

/-- Static method `QueryContext.get_viz_annotation_data` (lines 266-284).
The source evaluates `form_data = chart.form_data.copy()` before the
`if not chart:` existence check, so a missing chart raises
`AttributeError` on the `form_data` access and the
`QueryObjectValidationError("The chart does not exist")` raise below it is
unreachable (an existing chart object is always truthy).  Exceptions from
the re-executed visualization are translated to a validation error only
when they are `SupersetException`s. -/
def get_viz_annotation_data (env : Env) (annotation_layer : AnnotationLayerRef)
    (force : Bool) : Except PyExc AnnPayload :=
  match env.chart_find_by_id annotation_layer.value with
  | none =>
      .error (.attributeError "NoneType object has no attribute form_data")
  | some chart =>
      match env.viz_payload chart.datasource_type chart.datasource_id
          chart.form_data force with
      | .ok data => .ok (.viz data)
      | .error e =>
          if e.isSupersetException then
            .error (.validationError (error_msg_from_exception e))
          else .error e

/-- The fixed column list of `get_native_annotation_data`. -/
def nativeColumns : List String :=
  ["start_dttm", "end_dttm", "short_descr", "long_descr", "json_metadata"]

/-- Lookup in the dict comprehension
`{layer_object.id: layer_object for layer_object in find_by_ids(...)}`:
a duplicated id keeps the last object. -/
def lastById (objs : List LayerObject) (i : Nat) : Option LayerObject :=
  (objs.filter (fun o => o.id == i)).getLast?

/-- Merge loop shared by the two annotation resolvers: starting from `d0`,
resolve each layer with `f` and assign the result under the layer's name
(`annotation_data[layer_name] = result`), propagating any exception. -/
def mergeLayersM (f : AnnotationLayerRef → Except PyExc AnnPayload) :
    AnnDict → List AnnotationLayerRef → Except PyExc AnnDict
  | d0, [] => .ok d0
  | d0, layer :: rest =>
      match f layer with
      | .error e => .error e
      | .ok v => mergeLayersM f (dictSet d0 layer.name v) rest

/-- Static method `QueryContext.get_native_annotation_data` (lines
232-264): filter the NATIVE layers, resolve them by id via the DAO, and
build the `{columns, records}` payload per layer; `layer_objects[layer_id]`
raises `KeyError` when the DAO did not return the id. -/
def get_native_annotation_data (env : Env) (query_obj : QueryObject) :
    Except PyExc AnnDict :=
  let annotation_layers :=
    query_obj.annotation_layers.filter (fun l => l.sourceType == "NATIVE")
  let layer_ids := annotation_layers.map (fun l => l.value)
  let layer_objects := env.find_by_ids layer_ids
  mergeLayersM
    (fun layer =>
      match lastById layer_objects layer.value with
      | none => .error (.keyError (toString layer.value))
      | some obj =>
          .ok (.native nativeColumns
            (obj.annotation_rows.map (fun r =>
              [("start_dttm", r.start_dttm), ("end_dttm", r.end_dttm),
               ("short_descr", r.short_descr), ("long_descr", r.long_descr),
               ("json_metadata", r.json_metadata)]))))
    [] annotation_layers

/-- The derived layers of a query object (source types "line"/"table"). -/
def derivedLayers (query_obj : QueryObject) : List AnnotationLayerRef :=
  query_obj.annotation_layers.filter
    (fun l => l.sourceType == "line" || l.sourceType == "table")

/-- Method `QueryContext.get_annotation_data` (lines 286-302): native
layers first, then each derived layer is resolved and assigned under its
name, overwriting any earlier entry with the same name. -/
def get_annotation_data (ctx : QueryContext) (env : Env)
    (query_obj : QueryObject) : Except PyExc AnnDict :=
  match get_native_annotation_data env query_obj with
  | .error e => .error e
  | .ok d0 =>
      mergeLayersM (fun layer => get_viz_annotation_data env layer ctx.force)
        d0 (derivedLayers query_obj)

/-- The `timestamp_format` selection at the top of `get_query_result`
(lines 106-110): when the datasource is of type "table" and
`get_column(query_object.granularity)` yields a column, use its
`python_date_format` hint; `get_column(None)` matches no column. -/
def timestampFormat (ctx : QueryContext) (query_obj : QueryObject) :
    Option String :=
  if ctx.datasource.type = "table" then
    match query_obj.granularity with
    | none => none
    | some g =>
      match ctx.datasource.get_column g with
      | some c => c.python_date_format
      | none => none
  else none

/-- Static method `QueryContext.df_metrics_to_num` (lines 142-149): for
every column whose dtype is object and whose name is a metric name,
soft-convert via `infer_objects`; other columns are untouched. -/
def df_metrics_to_num (env : Env) (df : DataFrame) (query_obj : QueryObject) :
    DataFrame :=
  { df with
    cols := df.cols.map (fun c =>
      if c.2 = Dtype.object ∧ c.1 ∈ query_obj.metric_names then
        (c.1, env.infer_objects c.1 c.2)
      else c) }

/-- Method `QueryContext.get_query_result` (lines 99-140): query the
datasource, and when the returned frame is non-empty run, in order,
`normalize_dttm_col` (with the timestamp-format hint, the datasource
offset and the query time shift), `df_metrics_to_num` (under the
`enforce_numerical_metrics` class flag), the infinity replacement, and
`exec_post_processing`; an empty frame flows through untouched.  The
returned event list records the calls in source order. -/
def get_query_result (ctx : QueryContext) (env : Env)
    (query_obj : QueryObject) : Except PyExc DSResult × List Event :=
  let timestamp_format := timestampFormat ctx query_obj
  match ctx.datasource.query query_obj with
  | .error e => (.error e, [.dsQuery])
  | .ok result =>
    if result.df.isEmpty then
      (.ok { df := result.df, query := result.query, status := result.status,
             error_message := result.error_message }, [.dsQuery])
    else
      match env.normalize_dttm_col result.df timestamp_format
          ctx.datasource.offset query_obj.time_shift with
      | .error e => (.error e, [.dsQuery, .normalizeDttm timestamp_format])
      | .ok df1 =>
        let df2 :=
          if enforce_numerical_metrics then df_metrics_to_num env df1 query_obj
          else df1
        let numEvents : List Event :=
          if enforce_numerical_metrics then [.metricsToNum] else []
        let df3 := env.replace_inf_nan df2
        match query_obj.exec_post_processing df3 with
        | .error e =>
            (.error e,
             [.dsQuery, .normalizeDttm timestamp_format] ++ numEvents ++
               [.replaceInf, .postProcess])
        | .ok df4 =>
            (.ok { df := df4, query := result.query, status := result.status,
                   error_message := result.error_message },
             [.dsQuery, .normalizeDttm timestamp_format] ++ numEvents ++
               [.replaceInf, .postProcess])

/-- The local variables of `get_df_payload` after the cache-read block
(lines 310-334). -/
structure CacheLoadOut where
  cache_value : Option CacheEntry
  df : DataFrame
  query : String
  annotation_data : AnnDict
  status : Option QueryStatus
  is_loaded : Bool

/-- Whether the cache read is attempted:
`if cache_key and cache_manager.data_cache and not self.force:`. -/
def cacheAttempted (ctx : QueryContext) (env : Env) : Bool :=
  optStrTruthy env.query_cache_key && env.data_cache_configured && !ctx.force

/-- The initial values of the `get_df_payload` locals (lines 310-317). -/
def baseLoadOut : CacheLoadOut :=
  { cache_value := none, df := emptyDataFrame, query := "",
    annotation_data := [], status := none, is_loaded := false }

/-- Loading a fetched cache entry (lines 320-334): the `try` performs
sequential dict accesses, so a missing "df" key aborts before anything is
assigned and a missing "query" key aborts after `df` was already
reassigned; the `KeyError` is caught and the entry is treated as a miss
(`is_loaded` stays false).  An empty dict is falsy, so `if cache_value:`
skips the `try` entirely.  `cache_value` keeps the fetched entry in every
case. -/
def loadEntry (cv : CacheEntry) : CacheLoadOut :=
  let withCv := { baseLoadOut with cache_value := some cv }
  if cv.keys.isEmpty then withCv
  else if cv.keys.contains "df" then
    let d1 := { withCv with df := cv.df }
    if cv.keys.contains "query" then
      { d1 with
        query := cv.query,
        annotation_data :=
          if cv.keys.contains "annotation_data" then cv.annotation_data
          else [],
        status := some .success, is_loaded := true }
    else d1
  else withCv

/-- The cache-read block of `get_df_payload` (lines 310-334). -/
def cachePhase (ctx : QueryContext) (env : Env) : CacheLoadOut :=
  if cacheAttempted ctx env then
    match env.data_cache_get (env.query_cache_key.getD "") with
    | none => baseLoadOut
    | some cv => loadEntry cv
  else baseLoadOut

/-- `cache_value["dttm"] if cache_value is not None else None` in the
envelope dict literal (line 390): an entry lacking the "dttm" key raises
`KeyError` during envelope construction. -/
def cachedDttmOf (c : CacheLoadOut) : Except PyExc (Option Int) :=
  match c.cache_value with
  | some cv =>
      if cv.keys.contains "dttm" then .ok (some cv.dttm)
      else .error (.keyError "dttm")
  | none => .ok none

/-- The invalid-column computation of `get_df_payload` (lines 344-350):
names referenced by `columns`, `groupby` or the metric-derived column
names that are neither datasource columns nor `DTTM_ALIAS`
(`query_obj.metrics or []` makes a missing metrics list empty). -/
def invalidColumns (ctx : QueryContext) (env : Env)
    (query_obj : QueryObject) : List String :=
  (query_obj.columns ++ query_obj.groupby ++
      env.get_column_names_from_metrics (query_obj.metrics.getD [])).filter
    (fun col =>
      !(ctx.datasource.column_names.contains col) && col != DTTM_ALIAS)

/-- The message of the validation error raised for invalid columns
(line 352-357); the babel interpolation of the Python list into
`"Columns missing in datasource: %(invalid_columns)s"` is abstracted to a
comma-separated rendering of the names. -/
def columnsMissingMsg (invalid : List String) : String :=
  "Columns missing in datasource: " ++ String.intercalate ", " invalid

/-- The local variables of `get_df_payload` after the fetch `try/except`
(lines 342-378), plus the events the fetch emitted. -/
structure FetchOut where
  df : DataFrame
  query : String
  annotation_data : AnnDict
  status : Option QueryStatus
  error_message : Option String
  stacktrace : Option String
  is_loaded : Bool
  events : List Event

/-- The two `except` clauses of the fetch block (lines 370-378):
`QueryObjectValidationError` keeps no stack trace and takes the error's
message; any other exception keeps a previously assigned truthy
`error_message` (`if not error_message:`), otherwise takes `str(ex)`, and
captures a stack trace.  `cur_error`, `df`, `q` and `ann` are the values
the mutated locals hold at the raise point. -/
def exceptHandler (env : Env) (e : PyExc) (cur_error : Option String)
    (df : DataFrame) (q : String) (ann : AnnDict) (evs : List Event) :
    FetchOut :=
  match e with
  | .validationError m =>
      { df := df, query := q, annotation_data := ann, status := some .failed,
        error_message := some m, stacktrace := none, is_loaded := false,
        events := evs }
  | _ =>
      { df := df, query := q, annotation_data := ann, status := some .failed,
        error_message :=
          if optStrTruthy cur_error then cur_error else some e.str,
        stacktrace := some env.captured_stacktrace, is_loaded := false,
        events := evs }

/-- The fetch `try/except` of `get_df_payload` (lines 342-378), entered
with the post-cache locals `c` (so exception paths keep the values the
locals held at the raise point).  The invalid-column check raises a
validation error before the datasource query; after a successful query
and annotation fetch, `is_loaded` is set exactly when the reported status
is not FAILED. -/
def fetchTry (ctx : QueryContext) (env : Env) (query_obj : QueryObject)
    (c : CacheLoadOut) : FetchOut :=
  let invalid := invalidColumns ctx env query_obj
  if invalid.isEmpty then
    match get_query_result ctx env query_obj with
    | (.error e, evs) =>
        exceptHandler env e none c.df c.query c.annotation_data evs
    | (.ok qr, evs) =>
      match get_annotation_data ctx env query_obj with
      | .error e =>
          exceptHandler env e qr.error_message qr.df qr.query
            c.annotation_data (evs ++ [.annotationFetch])
      | .ok ann =>
          { df := qr.df, query := qr.query, annotation_data := ann,
            status := some qr.status, error_message := qr.error_message,
            stacktrace := none,
            is_loaded := decide (qr.status ≠ .failed),
            events := evs ++ [.annotationFetch] }
  else
    -- `raise QueryObjectValidationError(...)` caught by the first handler
    { df := c.df, query := c.query, annotation_data := c.annotation_data,
      status := some .failed,
      error_message := some (columnsMissingMsg invalid),
      stacktrace := none, is_loaded := false, events := [] }

/-- The `ResultEnvelope` dict `get_df_payload` returns (lines 388-400). -/
structure Envelope where
  cache_key : Option String
  cached_dttm : Option Int
  cache_timeout : Int
  df : DataFrame
  annotation_data : AnnDict
  error : Option String
  is_cached : Bool
  query : String
  status : Option QueryStatus
  stacktrace : Option String
  rowcount : Nat
deriving DecidableEq

/-- The state the fetch locals hold when the cache hit fully loaded
(the fetch block `if query_obj and not is_loaded:` is skipped;
`error_message` and `stacktrace` still hold their initial `None`). -/
def hitOut (c : CacheLoadOut) : FetchOut :=
  { df := c.df, query := c.query, annotation_data := c.annotation_data,
    status := c.status, error_message := none, stacktrace := none,
    is_loaded := true, events := [] }

/-- The guard of the cache write (line 380): the fetch block was entered
(`not is_loaded` before it), completed with `is_loaded` set, a truthy
cache key exists, and the status is not FAILED. -/
def writeCondB (env : Env) (c : CacheLoadOut) (f : FetchOut) : Bool :=
  !c.is_loaded && f.is_loaded && optStrTruthy env.query_cache_key &&
    decide (f.status ≠ some QueryStatus.failed)

/-- The tail of `get_df_payload` after the fetch block (lines 380-400):
the conditional cache write (whose `self.cache_timeout` argument can
raise, outside any `try`), then the envelope dict literal, which evaluates
`cache_value["dttm"]` and then `self.cache_timeout` again; any exception
propagates with the events emitted so far. -/
def finishPayload (ctx : QueryContext) (env : Env) (c : CacheLoadOut)
    (f : FetchOut) (readEvs : List Event) :
    Except PyExc Envelope × List Event :=
  let writeRes : Except PyExc (List Event) :=
    if writeCondB env c f then
      match cache_timeout ctx env with
      | .error e => .error e
      | .ok t =>
          .ok [.cacheWrite (env.query_cache_key.getD "") f.df f.query
                f.annotation_data t]
    else .ok []
  match writeRes with
  | .error e => (.error e, readEvs ++ f.events)
  | .ok wevs =>
    match cachedDttmOf c with
    | .error e => (.error e, readEvs ++ f.events ++ wevs)
    | .ok cached_dttm =>
      match cache_timeout ctx env with
      | .error e => (.error e, readEvs ++ f.events ++ wevs)
      | .ok t =>
          (.ok { cache_key := env.query_cache_key, cached_dttm := cached_dttm,
                 cache_timeout := t, df := f.df,
                 annotation_data := f.annotation_data,
                 error := f.error_message,
                 is_cached := c.cache_value.isSome, query := f.query,
                 status := f.status, stacktrace := f.stacktrace,
                 rowcount := f.df.nrows },
           readEvs ++ f.events ++ wevs)

/-- Method `QueryContext.get_df_payload` (lines 304-400): cache read,
`CacheLoadError` on a cache-only miss, fetch with validation and exception
recovery, then the cache write and envelope assembly of `finishPayload`. -/
def get_df_payload (ctx : QueryContext) (env : Env) (query_obj : QueryObject)
    (force_cached : Bool) : Except PyExc Envelope × List Event :=
  let c := cachePhase ctx env
  let readEvs : List Event := if cacheAttempted ctx env then [.cacheRead] else []
  if force_cached && !c.is_loaded then
    (.error (.cacheLoadError "Error loading data from cache"), readEvs)
  else
    let f : FetchOut :=
      if c.is_loaded then hitOut c else fetchTry ctx env query_obj c
    finishPayload ctx env c f readEvs

/-- A minimal SQL-table datasource used as a concrete test fixture (owning
database present, both timeouts unset, columns region/sales). -/
def dsBase : Datasource :=
  { type := "table", database := some { cache_timeout := none },
    cache_timeout := none, column_names := ["region", "sales"], offset := 0,
    uid := "1__table", get_column := fun _ => none,
    query := fun _ =>
      .ok { df := emptyDataFrame, query := "SELECT 1", status := .success,
            error_message := none } }

/-- A concrete environment fixture: empty cache, one derivable key, inert
collaborators. -/
def envBase : Env :=
  { cache_default_timeout := 300, data_cache_configured := true,
    data_cache_get := fun _ => none, query_cache_key := some "key1",
    get_column_names_from_metrics := fun _ => [],
    normalize_dttm_col := fun df _ _ _ => .ok df,
    infer_objects := fun _ d => d,
    replace_inf_nan := fun df => df,
    captured_stacktrace := "stacktrace text",
    find_by_ids := fun _ => [],
    chart_find_by_id := fun _ => none,
    viz_payload := fun _ _ _ _ => .ok "vizdata" }

/-- A concrete query-object fixture with no columns and no layers. -/
def qoBase : QueryObject :=
  { granularity := none, time_shift := none, columns := [], groupby := [],
    metrics := none, metric_names := [], annotation_layers := [],
    exec_post_processing := fun df => .ok df }

/-- A concrete context fixture over `dsBase`. -/
def ctxBase : QueryContext :=
  { datasource := dsBase, force := false, custom_cache_timeout := none }

/-- `dsBase` without the owning-database attribute (`hasattr` false). -/
def dsNoDatabase : Datasource := { dsBase with database := none }

/-- Context over a datasource lacking the `database` attribute, with no
per-call override and no datasource timeout. -/
def ctxNoDb : QueryContext :=
  { datasource := dsNoDatabase, force := false, custom_cache_timeout := none }

/-- C1: the claim states first-non-null timeout precedence ending in the
process-wide default.  The code instead evaluates
`(hasattr(self.datasource, "database") and self.datasource.database.cache_timeout) is not None`,
which is `True` whenever `hasattr` is `False`, so for a datasource without
a `database` attribute (both higher-precedence timeouts null) the `return`
dereferences the missing attribute and raises `AttributeError` instead of
returning the default.  With the attribute present the claimed precedence
holds: the null/null case returns `CACHE_DEFAULT_TIMEOUT`, and the other
three levels resolve first-non-null. -/
theorem cache_timeout_missing_database_attribute_error :
    cache_timeout ctxNoDb envBase
        = .error (.attributeError "datasource has no attribute database")
    ∧ cache_timeout ctxBase envBase = .ok envBase.cache_default_timeout
    ∧ cache_timeout { ctxBase with custom_cache_timeout := some 7 } envBase
        = .ok 7
    ∧ cache_timeout
        { ctxBase with
          datasource := { dsBase with cache_timeout := some 11 } } envBase
        = .ok 11
    ∧ cache_timeout
        { ctxBase with
          datasource :=
            { dsBase with database := some { cache_timeout := some 13 } } }
        envBase = .ok 13 :=
  ⟨rfl, rfl, rfl, rfl, rfl⟩

/-- A derived annotation layer whose chart reference does not resolve. -/
def layerMissingChart : AnnotationLayerRef :=
  { sourceType := "line", value := 42, name := "Holidays" }

/-- C2: the claim states that a derived layer whose chart reference does
not resolve fails with `QueryObjectValidationError("The chart does not exist")`.
The code evaluates `chart.form_data.copy()` before the `if not chart:`
check, so it raises a raw `AttributeError` instead — which is not a
`SupersetException`, hence not recovered into a validation error. -/
theorem viz_annotation_missing_chart_raises_attribute_error :
    get_viz_annotation_data envBase layerMissingChart false
        = .error (.attributeError "NoneType object has no attribute form_data")
    ∧ (PyExc.attributeError
        "NoneType object has no attribute form_data").isSupersetException
        = false :=
  ⟨rfl, rfl⟩

/-- C3: a cache-only read (`force_cached`) with no usable cache entry
loaded raises `CacheLoadError` before any column validation, datasource
query, post-processing, annotation merge, or cache write: the result is
that error and the only event that may have occurred is the cache read. -/
theorem force_cached_miss_raises_cache_load_error
    (ctx : QueryContext) (env : Env) (query_obj : QueryObject)
    (h : (cachePhase ctx env).is_loaded = false) :
    (get_df_payload ctx env query_obj true).1
        = .error (.cacheLoadError "Error loading data from cache")
    ∧ ∀ ev ∈ (get_df_payload ctx env query_obj true).2, ev = Event.cacheRead := by
  have hpayload : get_df_payload ctx env query_obj true
      = (.error (.cacheLoadError "Error loading data from cache"),
         if cacheAttempted ctx env then [Event.cacheRead] else []) := by
    simp only [get_df_payload, h, Bool.not_false, Bool.and_true, if_true]
  refine ⟨by rw [hpayload], ?_⟩
  rw [hpayload]
  intro ev hev
  by_cases hc : cacheAttempted ctx env
  · rw [if_pos hc] at hev
    simpa using hev
  · rw [if_neg hc] at hev
    simp at hev

/-- C3 witness: on the concrete fixtures (empty cache store) the
cache-only read fails with `CacheLoadError` and emits only the cache
read. -/
theorem force_cached_miss_witness :
    (get_df_payload ctxBase envBase qoBase true).1
        = .error (.cacheLoadError "Error loading data from cache") :=
  (force_cached_miss_raises_cache_load_error ctxBase envBase qoBase rfl).1

lemma finishPayload_no_write (ctx : QueryContext) (env : Env)
    (c : CacheLoadOut) (f : FetchOut) (revs : List Event) (d : Option Int)
    (t : Int) (hw : writeCondB env c f = false)
    (hd : cachedDttmOf c = .ok d) (ht : cache_timeout ctx env = .ok t) :
    finishPayload ctx env c f revs =
      (.ok { cache_key := env.query_cache_key, cached_dttm := d,
             cache_timeout := t, df := f.df,
             annotation_data := f.annotation_data, error := f.error_message,
             is_cached := c.cache_value.isSome, query := f.query,
             status := f.status, stacktrace := f.stacktrace,
             rowcount := f.df.nrows },
       revs ++ f.events) := by
  simp [finishPayload, hw, hd, ht]

lemma finishPayload_write (ctx : QueryContext) (env : Env)
    (c : CacheLoadOut) (f : FetchOut) (revs : List Event) (d : Option Int)
    (t : Int) (hw : writeCondB env c f = true)
    (hd : cachedDttmOf c = .ok d) (ht : cache_timeout ctx env = .ok t) :
    finishPayload ctx env c f revs =
      (.ok { cache_key := env.query_cache_key, cached_dttm := d,
             cache_timeout := t, df := f.df,
             annotation_data := f.annotation_data, error := f.error_message,
             is_cached := c.cache_value.isSome, query := f.query,
             status := f.status, stacktrace := f.stacktrace,
             rowcount := f.df.nrows },
       revs ++ f.events ++
         [.cacheWrite (env.query_cache_key.getD "") f.df f.query
           f.annotation_data t]) := by
  simp [finishPayload, hw, hd, ht]

lemma finishPayload_dttm_error (ctx : QueryContext) (env : Env)
    (c : CacheLoadOut) (f : FetchOut) (revs : List Event) (t : Int)
    (e : PyExc) (ht : cache_timeout ctx env = .ok t)
    (hd : cachedDttmOf c = .error e) :
    (finishPayload ctx env c f revs).1 = .error e := by
  cases hw : writeCondB env c f <;> simp [finishPayload, hw, hd, ht]

lemma fetchTry_invalid (ctx : QueryContext) (env : Env)
    (query_obj : QueryObject) (c : CacheLoadOut)
    (hinv : invalidColumns ctx env query_obj ≠ []) :
    fetchTry ctx env query_obj c =
      { df := c.df, query := c.query, annotation_data := c.annotation_data,
        status := some .failed,
        error_message :=
          some (columnsMissingMsg (invalidColumns ctx env query_obj)),
        stacktrace := none, is_loaded := false, events := [] } := by
  unfold fetchTry
  rw [if_neg]
  simpa using hinv

lemma get_df_payload_not_forced (ctx : QueryContext) (env : Env)
    (query_obj : QueryObject)
    (hload : (cachePhase ctx env).is_loaded = false) :
    get_df_payload ctx env query_obj false
      = finishPayload ctx env (cachePhase ctx env)
          (fetchTry ctx env query_obj (cachePhase ctx env))
          (if cacheAttempted ctx env then [Event.cacheRead] else []) := by
  simp [get_df_payload, hload]

/-- C4: a query specification not served from cache that references a
column name unknown to the datasource (and different from `DTTM_ALIAS`)
yields a FAILED envelope whose error message lists exactly the invalid
names, and nothing but the cache read happens: no datasource query, no
post-processing, no annotation merge, no cache write. -/
theorem invalid_columns_fail_before_query
    (ctx : QueryContext) (env : Env) (query_obj : QueryObject)
    (d : Option Int) (t : Int)
    (hload : (cachePhase ctx env).is_loaded = false)
    (hinv : invalidColumns ctx env query_obj ≠ [])
    (hd : cachedDttmOf (cachePhase ctx env) = .ok d)
    (ht : cache_timeout ctx env = .ok t) :
    (∃ E, (get_df_payload ctx env query_obj false).1 = .ok E
        ∧ E.status = some .failed
        ∧ E.error
            = some (columnsMissingMsg (invalidColumns ctx env query_obj)))
    ∧ ∀ ev ∈ (get_df_payload ctx env query_obj false).2,
        ev = Event.cacheRead := by
  have hf := fetchTry_invalid ctx env query_obj (cachePhase ctx env) hinv
  have hw : writeCondB env (cachePhase ctx env)
      (fetchTry ctx env query_obj (cachePhase ctx env)) = false := by
    rw [hf]; simp [writeCondB]
  rw [get_df_payload_not_forced ctx env query_obj hload,
    finishPayload_no_write ctx env _ _ _ d t hw hd ht]
  refine ⟨⟨_, rfl, by rw [hf], by rw [hf]⟩, ?_⟩
  intro ev hev
  rw [hf] at hev
  by_cases hc : cacheAttempted ctx env
  · rw [if_pos hc] at hev; simpa using hev
  · rw [if_neg hc] at hev; simp at hev

/-- A query specification requesting the undeclared column `revenue`. -/
def qoInvalid : QueryObject := { qoBase with columns := ["revenue"] }

/-- C4 witness: on the concrete fixtures (datasource columns
region/sales, request for `revenue`, empty cache) the envelope is FAILED
with the message naming `revenue`. -/
theorem invalid_columns_witness :
    ((get_df_payload ctxBase envBase qoInvalid false).1.map
        (fun E => (E.status, E.error)))
      = .ok (some QueryStatus.failed,
             some (columnsMissingMsg ["revenue"])) := by
  obtain ⟨⟨E, hE, hs, he⟩, -⟩ :=
    invalid_columns_fail_before_query ctxBase envBase qoInvalid none 300
      rfl (by decide) rfl rfl
  have hinv : invalidColumns ctxBase envBase qoInvalid = ["revenue"] := by
    decide
  rw [hE]
  simp [Except.map, hs, he, hinv]

lemma exceptHandler_events (env : Env) (e : PyExc) (cur : Option String)
    (df : DataFrame) (q : String) (ann : AnnDict) (evs : List Event) :
    (exceptHandler env e cur df q ann evs).events = evs := by
  cases e <;> rfl

lemma exceptHandler_is_loaded (env : Env) (e : PyExc) (cur : Option String)
    (df : DataFrame) (q : String) (ann : AnnDict) (evs : List Event) :
    (exceptHandler env e cur df q ann evs).is_loaded = false := by
  cases e <;> rfl

lemma exceptHandler_status (env : Env) (e : PyExc) (cur : Option String)
    (df : DataFrame) (q : String) (ann : AnnDict) (evs : List Event) :
    (exceptHandler env e cur df q ann evs).status = some .failed := by
  cases e <;> rfl

lemma exceptHandler_error_ne_none (env : Env) (e : PyExc)
    (cur : Option String) (df : DataFrame) (q : String) (ann : AnnDict)
    (evs : List Event) :
    (exceptHandler env e cur df q ann evs).error_message ≠ none := by
  cases e <;> simp only [exceptHandler] <;> try simp
  all_goals
    cases cur
  all_goals simp [optStrTruthy]
  all_goals split <;> simp

def isCacheWriteEv : Event → Bool
  | .cacheWrite .. => true
  | _ => false

lemma gqr_events_no_write (ctx : QueryContext) (env : Env)
    (query_obj : QueryObject) :
    ∀ ev ∈ (get_query_result ctx env query_obj).2,
      isCacheWriteEv ev = false := by
  intro ev hev
  simp only [get_query_result] at hev
  split at hev
  · simp at hev; subst hev; rfl
  · split at hev
    · simp at hev; subst hev; rfl
    · split at hev
      · simp at hev; rcases hev with rfl | rfl <;> rfl
      · split at hev <;>
          · simp [enforce_numerical_metrics] at hev
            rcases hev with rfl | rfl | rfl | rfl | rfl <;> rfl

lemma fetchTry_gqr_error (ctx : QueryContext) (env : Env)
    (query_obj : QueryObject) (c : CacheLoadOut) (e : PyExc)
    (evs : List Event)
    (hinv : invalidColumns ctx env query_obj = [])
    (hq : get_query_result ctx env query_obj = (.error e, evs)) :
    fetchTry ctx env query_obj c
      = exceptHandler env e none c.df c.query c.annotation_data evs := by
  simp [fetchTry, hinv, hq]

lemma fetchTry_gad_error (ctx : QueryContext) (env : Env)
    (query_obj : QueryObject) (c : CacheLoadOut) (qr : DSResult)
    (evs : List Event) (e : PyExc)
    (hinv : invalidColumns ctx env query_obj = [])
    (hq : get_query_result ctx env query_obj = (.ok qr, evs))
    (ha : get_annotation_data ctx env query_obj = .error e) :
    fetchTry ctx env query_obj c
      = exceptHandler env e qr.error_message qr.df qr.query
          c.annotation_data (evs ++ [.annotationFetch]) := by
  simp [fetchTry, hinv, hq, ha]

lemma fetchTry_ok (ctx : QueryContext) (env : Env) (query_obj : QueryObject)
    (c : CacheLoadOut) (qr : DSResult) (evs : List Event) (a : AnnDict)
    (hinv : invalidColumns ctx env query_obj = [])
    (hq : get_query_result ctx env query_obj = (.ok qr, evs))
    (ha : get_annotation_data ctx env query_obj = .ok a) :
    fetchTry ctx env query_obj c =
      { df := qr.df, query := qr.query, annotation_data := a,
        status := some qr.status, error_message := qr.error_message,
        stacktrace := none,
        is_loaded := decide (qr.status ≠ QueryStatus.failed),
        events := evs ++ [.annotationFetch] } := by
  simp [fetchTry, hinv, hq, ha]

lemma fetchTry_events_no_write (ctx : QueryContext) (env : Env)
    (query_obj : QueryObject) (c : CacheLoadOut) :
    ∀ ev ∈ (fetchTry ctx env query_obj c).events,
      isCacheWriteEv ev = false := by
  intro ev hev
  by_cases hinv : invalidColumns ctx env query_obj = []
  · rcases hq : get_query_result ctx env query_obj with ⟨res, evs⟩
    have hevs : ∀ x ∈ evs, isCacheWriteEv x = false := by
      intro x hx
      have := gqr_events_no_write ctx env query_obj x
      rw [hq] at this
      exact this hx
    cases res with
    | error e =>
        rw [fetchTry_gqr_error ctx env query_obj c e evs hinv hq,
          exceptHandler_events] at hev
        exact hevs ev hev
    | ok qr =>
        cases ha : get_annotation_data ctx env query_obj with
        | error e =>
            rw [fetchTry_gad_error ctx env query_obj c qr evs e hinv hq ha,
              exceptHandler_events] at hev
            rcases List.mem_append.mp hev with h | h
            · exact hevs ev h
            · simp at h; subst h; rfl
        | ok a =>
            rw [fetchTry_ok ctx env query_obj c qr evs a hinv hq ha] at hev
            simp only at hev
            rcases List.mem_append.mp hev with h | h
            · exact hevs ev h
            · simp at h; subst h; rfl
  · rw [fetchTry_invalid ctx env query_obj c hinv] at hev
    simp at hev

lemma finishPayload_trace (ctx : QueryContext) (env : Env)
    (c : CacheLoadOut) (f : FetchOut) (revs : List Event) (t : Int)
    (ht : cache_timeout ctx env = .ok t) :
    (finishPayload ctx env c f revs).2
      = revs ++ f.events ++
        (if writeCondB env c f then
          [Event.cacheWrite (env.query_cache_key.getD "") f.df f.query
            f.annotation_data t]
         else []) := by
  by_cases hw : writeCondB env c f <;>
    cases hd : cachedDttmOf c <;> simp [finishPayload, hw, hd, ht]

lemma get_df_payload_loaded (ctx : QueryContext) (env : Env)
    (query_obj : QueryObject) (fc : Bool)
    (hload : (cachePhase ctx env).is_loaded = true) :
    get_df_payload ctx env query_obj fc
      = finishPayload ctx env (cachePhase ctx env)
          (hitOut (cachePhase ctx env))
          (if cacheAttempted ctx env then [Event.cacheRead] else []) := by
  simp [get_df_payload, hload]

lemma get_df_payload_forced_miss (ctx : QueryContext) (env : Env)
    (query_obj : QueryObject)
    (hload : (cachePhase ctx env).is_loaded = false) :
    get_df_payload ctx env query_obj true
      = (.error (.cacheLoadError "Error loading data from cache"),
         if cacheAttempted ctx env then [Event.cacheRead] else []) := by
  simp [get_df_payload, hload]

lemma readEvs_no_write (ctx : QueryContext) (env : Env) :
    ∀ ev ∈ (if cacheAttempted ctx env then [Event.cacheRead] else []),
      isCacheWriteEv ev = false := by
  intro ev hev
  by_cases hc : cacheAttempted ctx env
  · rw [if_pos hc] at hev; simp at hev; subst hev; rfl
  · rw [if_neg hc] at hev; simp at hev

/-- C5: the per-query cache write happens if and only if the entry was not
served from cache, no cache-only miss aborted the call, the fetch ran to
completion (no validation failure, no exception from the datasource query
or the annotation merge), its reported status is not FAILED, and a
(truthy) cache key was derived; when it happens it stores exactly the
post-processed table, the source query text and the annotation data under
the per-query key with the resolved cache timeout.  In particular, a
datasource response with status FAILED is never written. -/
theorem cache_write_iff
    (ctx : QueryContext) (env : Env) (query_obj : QueryObject) (fc : Bool)
    (t : Int) (ht : cache_timeout ctx env = .ok t) :
    ((∃ k dfw qw aw tw,
        Event.cacheWrite k dfw qw aw tw
          ∈ (get_df_payload ctx env query_obj fc).2) ↔
      ((cachePhase ctx env).is_loaded = false ∧ fc = false ∧
        invalidColumns ctx env query_obj = [] ∧
        (∃ qr evs a,
          get_query_result ctx env query_obj = (.ok qr, evs) ∧
          get_annotation_data ctx env query_obj = .ok a ∧
          qr.status ≠ QueryStatus.failed) ∧
        optStrTruthy env.query_cache_key = true))
    ∧ (∀ qr evs a, (cachePhase ctx env).is_loaded = false → fc = false →
        invalidColumns ctx env query_obj = [] →
        get_query_result ctx env query_obj = (.ok qr, evs) →
        get_annotation_data ctx env query_obj = .ok a →
        qr.status ≠ QueryStatus.failed →
        optStrTruthy env.query_cache_key = true →
        Event.cacheWrite (env.query_cache_key.getD "") qr.df qr.query a t
          ∈ (get_df_payload ctx env query_obj fc).2) := by
  have hback : ∀ qr evs a, (cachePhase ctx env).is_loaded = false →
      fc = false → invalidColumns ctx env query_obj = [] →
      get_query_result ctx env query_obj = (.ok qr, evs) →
      get_annotation_data ctx env query_obj = .ok a →
      qr.status ≠ QueryStatus.failed →
      optStrTruthy env.query_cache_key = true →
      Event.cacheWrite (env.query_cache_key.getD "") qr.df qr.query a t
        ∈ (get_df_payload ctx env query_obj fc).2 := by
    intro qr evs a hload hfc hinv hq ha hstat hkey
    subst hfc
    have hfeq := fetchTry_ok ctx env query_obj (cachePhase ctx env) qr evs a
      hinv hq ha
    have hw : writeCondB env (cachePhase ctx env)
        (fetchTry ctx env query_obj (cachePhase ctx env)) = true := by
      rw [hfeq]
      simp [writeCondB, hload, hkey, hstat]
    rw [get_df_payload_not_forced ctx env query_obj hload,
      finishPayload_trace ctx env _ _ _ t ht, hw, if_pos rfl, hfeq]
    simp
  refine ⟨⟨?_, ?_⟩, hback⟩
  case refine_2 =>
    rintro ⟨hload, hfc, hinv, ⟨qr, evs, a, hq, ha, hstat⟩, hkey⟩
    exact ⟨_, _, _, _, _, hback qr evs a hload hfc hinv hq ha hstat hkey⟩
  · rintro ⟨k, dfw, qw, aw, tw, hmem⟩
    by_cases hload : (cachePhase ctx env).is_loaded = true
    · exfalso
      rw [get_df_payload_loaded ctx env query_obj fc hload,
        finishPayload_trace ctx env _ _ _ t ht] at hmem
      have hw : writeCondB env (cachePhase ctx env)
          (hitOut (cachePhase ctx env)) = false := by
        simp [writeCondB, hload]
      rw [hw] at hmem
      simp only [Bool.false_eq_true, if_false, List.append_nil] at hmem
      rcases List.mem_append.mp hmem with h | h
      · have := readEvs_no_write ctx env _ h; simp [isCacheWriteEv] at this
      · simp [hitOut] at h
    · have hload' : (cachePhase ctx env).is_loaded = false := by
        simpa using hload
      cases fc with
      | true =>
          exfalso
          rw [get_df_payload_forced_miss ctx env query_obj hload'] at hmem
          have := readEvs_no_write ctx env _ hmem
          simp [isCacheWriteEv] at this
      | false =>
          rw [get_df_payload_not_forced ctx env query_obj hload',
            finishPayload_trace ctx env _ _ _ t ht] at hmem
          rcases List.mem_append.mp hmem with h | h
          · exfalso
            rcases List.mem_append.mp h with h2 | h2
            · have := readEvs_no_write ctx env _ h2
              simp [isCacheWriteEv] at this
            · have := fetchTry_events_no_write ctx env query_obj _ _ h2
              simp [isCacheWriteEv] at this
          · by_cases hw : writeCondB env (cachePhase ctx env)
                (fetchTry ctx env query_obj (cachePhase ctx env)) = true
            · refine ⟨hload', rfl, ?_⟩
              by_cases hinv : invalidColumns ctx env query_obj = []
              · rcases hq : get_query_result ctx env query_obj with ⟨res, evs⟩
                cases res with
                | error e =>
                    exfalso
                    rw [fetchTry_gqr_error ctx env query_obj _ e evs hinv hq]
                      at hw
                    simp [writeCondB, exceptHandler_is_loaded] at hw
                | ok qr =>
                    cases ha : get_annotation_data ctx env query_obj with
                    | error e =>
                        exfalso
                        rw [fetchTry_gad_error ctx env query_obj _ qr evs e
                          hinv hq ha] at hw
                        simp [writeCondB, exceptHandler_is_loaded] at hw
                    | ok a =>
                        rw [fetchTry_ok ctx env query_obj _ qr evs a hinv hq
                          ha] at hw
                        simp only [writeCondB, Bool.and_eq_true,
                          decide_eq_true_eq] at hw
                        exact ⟨hinv, ⟨qr, evs, a, rfl, rfl, hw.1.1.2⟩,
                          hw.1.2⟩
              · exfalso
                rw [fetchTry_invalid ctx env query_obj _ hinv] at hw
                simp [writeCondB] at hw
            · exfalso
              rw [if_neg hw] at h
              simp at h

/-- The datasource response of the `dsBase` fixture. -/
def dsResultBase : DSResult :=
  { df := emptyDataFrame, query := "SELECT 1", status := .success,
    error_message := none }

/-- C5 witness: on the concrete fixtures the successful fetch writes the
table, source text and annotation data under the derived key with the
resolved timeout. -/
theorem cache_write_witness :
    Event.cacheWrite "key1" emptyDataFrame "SELECT 1" [] 300
      ∈ (get_df_payload ctxBase envBase qoBase false).2 :=
  (cache_write_iff ctxBase envBase qoBase false 300 rfl).2 dsResultBase
    [Event.dsQuery] [] rfl rfl rfl rfl rfl (by decide) rfl

lemma exceptHandler_validation (env : Env) (cur : Option String)
    (df : DataFrame) (q : String) (ann : AnnDict) (evs : List Event)
    (m : String) :
    exceptHandler env (.validationError m) cur df q ann evs
      = { df := df, query := q, annotation_data := ann,
          status := some .failed, error_message := some m,
          stacktrace := none, is_loaded := false, events := evs } := rfl

lemma exceptHandler_stacktrace_of_not_validation (env : Env) (e : PyExc)
    (cur : Option String) (df : DataFrame) (q : String) (ann : AnnDict)
    (evs : List Event) (h : ∀ m, e ≠ .validationError m) :
    (exceptHandler env e cur df q ann evs).stacktrace
      = some env.captured_stacktrace := by
  cases e with
  | validationError m => exact absurd rfl (h m)
  | cacheLoadError m => rfl
  | attributeError m => rfl
  | keyError k => rfl
  | otherError m => rfl

/-- C6: an exception raised during the source fetch or the annotation
merge is recovered into a FAILED envelope and never re-raised: a
`QueryObjectValidationError` yields `error` set to its message with no
stack trace, and any other exception yields a non-null error with the
captured stack trace stored in the envelope. -/
theorem exception_recovered_to_failed_envelope
    (ctx : QueryContext) (env : Env) (query_obj : QueryObject) (e : PyExc)
    (d : Option Int) (t : Int)
    (hload : (cachePhase ctx env).is_loaded = false)
    (hinv : invalidColumns ctx env query_obj = [])
    (hexc : (∃ evs, get_query_result ctx env query_obj = (.error e, evs)) ∨
            (∃ qr evs, get_query_result ctx env query_obj = (.ok qr, evs) ∧
              get_annotation_data ctx env query_obj = .error e))
    (hd : cachedDttmOf (cachePhase ctx env) = .ok d)
    (ht : cache_timeout ctx env = .ok t) :
    ∃ E, (get_df_payload ctx env query_obj false).1 = .ok E ∧
      E.status = some .failed ∧ E.error ≠ none ∧
      (∀ m, e = .validationError m → E.error = some m ∧ E.stacktrace = none) ∧
      ((∀ m, e ≠ .validationError m) →
        E.stacktrace = some env.captured_stacktrace) := by
  have hfeq : ∃ cur dfx qx annx evsx,
      fetchTry ctx env query_obj (cachePhase ctx env)
        = exceptHandler env e cur dfx qx annx evsx := by
    rcases hexc with ⟨evs, hq⟩ | ⟨qr, evs, hq, ha⟩
    · exact ⟨_, _, _, _, _,
        fetchTry_gqr_error ctx env query_obj (cachePhase ctx env) e evs
          hinv hq⟩
    · exact ⟨_, _, _, _, _,
        fetchTry_gad_error ctx env query_obj (cachePhase ctx env) qr evs e
          hinv hq ha⟩
  obtain ⟨cur, dfx, qx, annx, evsx, hfeq⟩ := hfeq
  have hw : writeCondB env (cachePhase ctx env)
      (fetchTry ctx env query_obj (cachePhase ctx env)) = false := by
    rw [hfeq]
    simp [writeCondB, exceptHandler_is_loaded]
  rw [get_df_payload_not_forced ctx env query_obj hload,
    finishPayload_no_write ctx env _ _ _ d t hw hd ht]
  refine ⟨_, rfl, ?_, ?_, ?_, ?_⟩
  · show (fetchTry ctx env query_obj (cachePhase ctx env)).status = _
    rw [hfeq]; exact exceptHandler_status env e cur dfx qx annx evsx
  · show (fetchTry ctx env query_obj (cachePhase ctx env)).error_message ≠ _
    rw [hfeq]; exact exceptHandler_error_ne_none env e cur dfx qx annx evsx
  · intro m hm
    subst hm
    constructor
    · show (fetchTry ctx env query_obj (cachePhase ctx env)).error_message = _
      rw [hfeq, exceptHandler_validation]
    · show (fetchTry ctx env query_obj (cachePhase ctx env)).stacktrace = _
      rw [hfeq, exceptHandler_validation]
  · intro hne
    show (fetchTry ctx env query_obj (cachePhase ctx env)).stacktrace = _
    rw [hfeq]
    exact exceptHandler_stacktrace_of_not_validation env e cur dfx qx annx
      evsx hne

/-- `dsBase` whose query call raises a generic exception. -/
def dsBoom : Datasource :=
  { dsBase with query := fun _ => .error (.otherError "boom") }

/-- Context over the raising datasource. -/
def ctxBoom : QueryContext :=
  { datasource := dsBoom, force := false, custom_cache_timeout := none }

/-- C6 witness: on the concrete fixtures a generic exception from the
datasource query yields a FAILED envelope carrying the captured stack
trace. -/
theorem exception_recovered_witness :
    ((get_df_payload ctxBoom envBase qoBase false).1.map
        (fun E => (E.status, E.stacktrace)))
      = .ok (some QueryStatus.failed, some "stacktrace text") := by
  obtain ⟨E, hE, hs, -, -, hst⟩ :=
    exception_recovered_to_failed_envelope ctxBoom envBase qoBase
      (.otherError "boom") none 300 rfl (by decide)
      (Or.inl ⟨[Event.dsQuery], rfl⟩) rfl rfl
  rw [hE]
  simp only [Except.map, hs, hst (fun m h => PyExc.noConfusion h)]
  rfl

lemma finishPayload_fst_ok (ctx : QueryContext) (env : Env)
    (c : CacheLoadOut) (f : FetchOut) (revs : List Event) (d : Option Int)
    (t : Int) (hd : cachedDttmOf c = .ok d)
    (ht : cache_timeout ctx env = .ok t) :
    (finishPayload ctx env c f revs).1
      = .ok { cache_key := env.query_cache_key, cached_dttm := d,
              cache_timeout := t, df := f.df,
              annotation_data := f.annotation_data, error := f.error_message,
              is_cached := c.cache_value.isSome, query := f.query,
              status := f.status, stacktrace := f.stacktrace,
              rowcount := f.df.nrows } := by
  by_cases hw : writeCondB env c f
  · rw [finishPayload_write ctx env c f revs d t hw hd ht]
  · rw [finishPayload_no_write ctx env c f revs d t (by simpa using hw)
      hd ht]

/-- C7: in `get_query_result` the post-processing pipeline runs only on a
non-empty table, and then in the fixed order timestamp normalization
(with the datasource's per-column date-format hint, its UTC offset and the
query time shift), numeric metric coercion, infinity scrubbing, and the
user-requested post-processing last; an empty table is returned untouched,
and in `get_df_payload` the annotation merge still runs for it with
`rowcount = 0` in the envelope. -/
theorem pipeline_order_and_empty_bypass
    (ctx : QueryContext) (env : Env) (query_obj : QueryObject)
    (res : DSResult)
    (hq : ctx.datasource.query query_obj = .ok res) :
    (res.df.isEmpty = true →
      get_query_result ctx env query_obj
        = (.ok { df := res.df, query := res.query, status := res.status,
                 error_message := res.error_message }, [Event.dsQuery]))
    ∧ (∀ df1 df4, res.df.isEmpty = false →
        env.normalize_dttm_col res.df (timestampFormat ctx query_obj)
            ctx.datasource.offset query_obj.time_shift = .ok df1 →
        query_obj.exec_post_processing
            (env.replace_inf_nan (df_metrics_to_num env df1 query_obj))
          = .ok df4 →
        get_query_result ctx env query_obj
          = (.ok { df := df4, query := res.query, status := res.status,
                   error_message := res.error_message },
             [Event.dsQuery,
              Event.normalizeDttm (timestampFormat ctx query_obj),
              Event.metricsToNum, Event.replaceInf, Event.postProcess]))
    ∧ (∀ a d t, res.df.nrows = 0 →
        (cachePhase ctx env).is_loaded = false →
        invalidColumns ctx env query_obj = [] →
        get_annotation_data ctx env query_obj = .ok a →
        cachedDttmOf (cachePhase ctx env) = .ok d →
        cache_timeout ctx env = .ok t →
        Event.annotationFetch ∈ (get_df_payload ctx env query_obj false).2 ∧
        ∀ E, (get_df_payload ctx env query_obj false).1 = .ok E →
          E.rowcount = 0 ∧ E.annotation_data = a) := by
  have hOkEmpty : res.df.isEmpty = true →
      get_query_result ctx env query_obj
        = (.ok { df := res.df, query := res.query, status := res.status,
                 error_message := res.error_message }, [Event.dsQuery]) := by
    intro hempty
    simp [get_query_result, hq, hempty]
  refine ⟨hOkEmpty, ?_, ?_⟩
  · intro df1 df4 hempty hnorm hpost
    simp [get_query_result, hq, hempty, hnorm, enforce_numerical_metrics,
      hpost]
  · intro a d t hzero hload hinv ha hd ht
    have hempty : res.df.isEmpty = true := by
      simp [DataFrame.isEmpty, hzero]
    have hfeq := fetchTry_ok ctx env query_obj (cachePhase ctx env)
      { df := res.df, query := res.query, status := res.status,
        error_message := res.error_message } [Event.dsQuery] a hinv
      (hOkEmpty hempty) ha
    rw [get_df_payload_not_forced ctx env query_obj hload]
    constructor
    · rw [finishPayload_trace ctx env _ _ _ t ht, hfeq]
      simp
    · intro E hE
      rw [finishPayload_fst_ok ctx env _ _ _ d t hd ht] at hE
      obtain rfl := (Except.ok.inj hE).symm
      rw [hfeq]
      exact ⟨hzero, rfl⟩

/-- A non-empty two-column result frame. -/
def dfSales : DataFrame :=
  { cols := [("region", Dtype.object), ("sales", Dtype.object)], nrows := 2 }

/-- The fixture datasource response carrying `dfSales`. -/
def resData : DSResult :=
  { df := dfSales, query := "SELECT r", status := .success,
    error_message := none }

/-- `dsBase` returning the non-empty `dfSales`. -/
def dsData : Datasource := { dsBase with query := fun _ => .ok resData }

/-- Context over `dsData`. -/
def ctxData : QueryContext :=
  { datasource := dsData, force := false, custom_cache_timeout := none }

/-- C7 witness: on the concrete fixtures the non-empty result runs the
four pipeline stages in order after the datasource query. -/
theorem pipeline_order_witness :
    get_query_result ctxData envBase qoBase
      = (.ok { df := dfSales, query := "SELECT r", status := .success,
               error_message := none },
         [Event.dsQuery, Event.normalizeDttm none, Event.metricsToNum,
          Event.replaceInf, Event.postProcess]) :=
  (pipeline_order_and_empty_bypass ctxData envBase qoBase resData
    rfl).2.1 dfSales dfSales rfl rfl rfl

lemma dictLookup_cons {α : Type} (p : String × α) (d : List (String × α))
    (n : String) :
    dictLookup (p :: d) n = if p.1 = n then some p.2 else dictLookup d n := by
  unfold dictLookup
  by_cases h : p.1 = n
  · rw [List.find?_cons_of_pos _ (by simpa using h), if_pos h]
    rfl
  · rw [List.find?_cons_of_neg _ (by simpa using h), if_neg h]

lemma dictLookup_map_set_ne {α : Type} (d : List (String × α))
    (k n : String) (v : α) (hne : n ≠ k) :
    dictLookup (d.map (fun p => if p.1 == k then (k, v) else p)) n
      = dictLookup d n := by
  induction d with
  | nil => rfl
  | cons p d ih =>
      simp only [List.map_cons]
      by_cases hp : p.1 == k
      · have hk : p.1 = k := by simpa using hp
        rw [if_pos hp, dictLookup_cons, dictLookup_cons,
          if_neg (by simpa using (Ne.symm hne)), if_neg (by rw [hk]; exact Ne.symm hne), ih]
      · rw [if_neg hp, dictLookup_cons, dictLookup_cons, ih]

lemma dictLookup_map_set_present {α : Type} (d : List (String × α))
    (k : String) (v : α) (h : d.any (fun p => p.1 == k) = true) :
    dictLookup (d.map (fun p => if p.1 == k then (k, v) else p)) k
      = some v := by
  induction d with
  | nil => simp at h
  | cons p d ih =>
      simp only [List.map_cons]
      by_cases hp : p.1 == k
      · rw [if_pos hp, dictLookup_cons, if_pos rfl]
      · rw [if_neg hp, dictLookup_cons, if_neg (by simpa using hp)]
        apply ih
        simp only [List.any_cons, hp, Bool.false_or] at h
        exact h

lemma dictLookup_dictSet {α : Type} (d : List (String × α)) (k n : String)
    (v : α) :
    dictLookup (dictSet d k v) n
      = if n = k then some v else dictLookup d n := by
  unfold dictSet
  by_cases hpres : d.any (fun p => p.1 == k) = true
  · rw [if_pos hpres]
    by_cases h : n = k
    · subst h; rw [if_pos rfl]; exact dictLookup_map_set_present d n v hpres
    · rw [if_neg h]; exact dictLookup_map_set_ne d k n v h
  · rw [if_neg hpres]
    by_cases h : n = k
    · subst h
      rw [if_pos rfl]
      have hfind : List.find? (fun p => p.1 == n) d = none := by
        rw [List.find?_eq_none]
        intro p hp hbeq
        exact hpres (List.any_eq_true.mpr ⟨p, hp, hbeq⟩)
      unfold dictLookup
      rw [List.find?_append, hfind]
      simp [List.find?]
    · rw [if_neg h]
      unfold dictLookup
      have hsingle : List.find? (fun p => p.1 == n) [(k, v)] = none := by
        rw [List.find?_eq_none]
        intro p hp hbeq
        rw [List.mem_singleton] at hp
        subst hp
        simp only [beq_iff_eq] at hbeq
        exact h hbeq.symm
      rw [List.find?_append, hsingle]
      simp

lemma dictKeys_map_set {α : Type} (d : List (String × α)) (k : String)
    (v : α) :
    dictKeys (d.map (fun p => if p.1 == k then (k, v) else p))
      = dictKeys d := by
  induction d with
  | nil => rfl
  | cons p d ih =>
      simp only [List.map_cons]
      by_cases hp : p.1 == k
      · have hk : p.1 = k := by simpa using hp
        rw [if_pos hp]
        simp only [dictKeys, List.map_cons] at ih ⊢
        rw [hk]
        exact congrArg _ ih
      · rw [if_neg hp]
        simp only [dictKeys, List.map_cons] at ih ⊢
        exact congrArg _ ih

lemma dictKeys_nodup_dictSet {α : Type} (d : List (String × α)) (k : String)
    (v : α) (h : (dictKeys d).Nodup) : (dictKeys (dictSet d k v)).Nodup := by
  unfold dictSet
  by_cases hpres : d.any (fun p => p.1 == k) = true
  · rw [if_pos hpres, dictKeys_map_set]; exact h
  · rw [if_neg hpres]
    have hk : k ∉ dictKeys d := by
      intro hmem
      apply hpres
      unfold dictKeys at hmem
      obtain ⟨p, hp, hpk⟩ := List.mem_map.mp hmem
      exact List.any_eq_true.mpr ⟨p, hp, by simp [hpk]⟩
    unfold dictKeys
    rw [List.map_append]
    simp only [List.map_cons, List.map_nil]
    rw [List.nodup_append]
    refine ⟨h, List.nodup_singleton k, ?_⟩
    intro x hx hxk
    rw [List.mem_singleton] at hxk
    subst hxk
    exact hk hx

/-- The pure merge loop underlying `mergeLayersM` once every layer
resolves: assign `vf layer` under each layer's name in order. -/
def mergeLayers (vf : AnnotationLayerRef → AnnPayload) :
    AnnDict → List AnnotationLayerRef → AnnDict
  | d0, [] => d0
  | d0, layer :: rest => mergeLayers vf (dictSet d0 layer.name (vf layer)) rest

lemma mergeLayersM_ok (f : AnnotationLayerRef → Except PyExc AnnPayload)
    (vf : AnnotationLayerRef → AnnPayload)
    (layers : List AnnotationLayerRef) (d0 : AnnDict)
    (h : ∀ l ∈ layers, f l = .ok (vf l)) :
    mergeLayersM f d0 layers = .ok (mergeLayers vf d0 layers) := by
  induction layers generalizing d0 with
  | nil => rfl
  | cons l ls ih =>
      have hl : f l = .ok (vf l) := h l (by simp)
      simp only [mergeLayersM, mergeLayers, hl]
      exact ih (dictSet d0 l.name (vf l)) (fun x hx => h x (by simp [hx]))

lemma mergeLayersM_nodup (f : AnnotationLayerRef → Except PyExc AnnPayload)
    (layers : List AnnotationLayerRef) :
    ∀ (d0 d : AnnDict), mergeLayersM f d0 layers = .ok d →
      (dictKeys d0).Nodup → (dictKeys d).Nodup := by
  induction layers with
  | nil =>
      intro d0 d h h0
      simp only [mergeLayersM] at h
      cases h
      exact h0
  | cons l ls ih =>
      intro d0 d h h0
      simp only [mergeLayersM] at h
      cases hf : f l with
      | error e => rw [hf] at h; cases h
      | ok v =>
          rw [hf] at h
          exact ih (dictSet d0 l.name v) d h
            (dictKeys_nodup_dictSet d0 l.name v h0)

lemma mergeLayers_lookup (vf : AnnotationLayerRef → AnnPayload)
    (layers : List AnnotationLayerRef) :
    ∀ (d0 : AnnDict) (n : String),
    dictLookup (mergeLayers vf d0 layers) n
      = match (layers.filter (fun l => l.name == n)).getLast? with
        | some l => some (vf l)
        | none => dictLookup d0 n := by
  induction layers with
  | nil => intro d0 n; rfl
  | cons l ls ih =>
      intro d0 n
      simp only [mergeLayers]
      rw [ih]
      by_cases hl : l.name = n
      · rw [List.filter_cons_of_pos (by simpa using hl)]
        cases hlast : (ls.filter (fun x => x.name == n)).getLast? with
        | some x =>
            rw [List.getLast?_cons, hlast]
            rfl
        | none =>
            rw [List.getLast?_cons, hlast, dictLookup_dictSet,
              if_pos (hl.symm)]
            rfl
      · rw [List.filter_cons_of_neg (by simpa using hl)]
        cases hlast : (ls.filter (fun x => x.name == n)).getLast? with
        | some x => rfl
        | none =>
            rw [dictLookup_dictSet, if_neg (fun hnk => hl (hnk.symm))]

lemma mergeLayers_nodup (vf : AnnotationLayerRef → AnnPayload)
    (layers : List AnnotationLayerRef) :
    ∀ d0 : AnnDict, (dictKeys d0).Nodup →
      (dictKeys (mergeLayers vf d0 layers)).Nodup := by
  induction layers with
  | nil => intro d0 h; exact h
  | cons l ls ih =>
      intro d0 h
      exact ih (dictSet d0 l.name (vf l))
        (dictKeys_nodup_dictSet d0 l.name (vf l) h)

/-- C8: `get_annotation_data` resolves the native layers first and then
merges the derived layers over them keyed by layer name with no dedup, so
the result has at most one entry per name, a name carried by at least one
derived layer holds the data of the last such layer, and a name carried by
no derived layer holds its native entry. -/
theorem annotation_merge_last_wins
    (ctx : QueryContext) (env : Env) (query_obj : QueryObject)
    (d0 : AnnDict) (vf : AnnotationLayerRef → AnnPayload)
    (hnat : get_native_annotation_data env query_obj = .ok d0)
    (hviz : ∀ l ∈ derivedLayers query_obj,
        get_viz_annotation_data env l ctx.force = .ok (vf l)) :
    get_annotation_data ctx env query_obj
        = .ok (mergeLayers vf d0 (derivedLayers query_obj))
    ∧ (dictKeys (mergeLayers vf d0 (derivedLayers query_obj))).Nodup
    ∧ (∀ n, dictLookup (mergeLayers vf d0 (derivedLayers query_obj)) n
        = match ((derivedLayers query_obj).filter
              (fun l => l.name == n)).getLast? with
          | some l => some (vf l)
          | none => dictLookup d0 n) := by
  have hnodup0 : (dictKeys d0).Nodup := by
    have := mergeLayersM_nodup _ _ _ _ hnat (by simp [dictKeys])
    exact this
  refine ⟨?_, mergeLayers_nodup vf _ d0 hnodup0,
    fun n => mergeLayers_lookup vf _ d0 n⟩
  unfold get_annotation_data
  rw [hnat]
  exact mergeLayersM_ok _ vf _ d0 hviz

/-- A native annotation row fixture. -/
def annRow1 : AnnRow :=
  { start_dttm := "s", end_dttm := "e", short_descr := "sd",
    long_descr := "ld", json_metadata := "j" }

/-- A native layer named Holidays. -/
def layerNativeHol : AnnotationLayerRef :=
  { sourceType := "NATIVE", value := 1, name := "Holidays" }

/-- A derived (line) layer also named Holidays. -/
def layerDerivedHol : AnnotationLayerRef :=
  { sourceType := "line", value := 2, name := "Holidays" }

/-- Query object carrying both Holidays layers. -/
def qoHolidays : QueryObject :=
  { qoBase with annotation_layers := [layerNativeHol, layerDerivedHol] }

/-- Environment resolving both Holidays layers. -/
def envHolidays : Env :=
  { envBase with
    find_by_ids := fun _ => [{ id := 1, annotation_rows := [annRow1] }],
    chart_find_by_id := fun _ =>
      some { form_data := "fd", datasource_type := "table",
             datasource_id := 1 } }

/-- The native Holidays entry the DAO yields on the fixtures. -/
def holNative : AnnPayload :=
  .native nativeColumns
    [[("start_dttm", "s"), ("end_dttm", "e"), ("short_descr", "sd"),
      ("long_descr", "ld"), ("json_metadata", "j")]]

/-- C8 witness: with a native layer and a derived layer both named
Holidays, the merged mapping holds exactly one Holidays entry, carrying
the derived (last-merged) data. -/
theorem annotation_merge_witness :
    get_annotation_data ctxBase envHolidays qoHolidays
      = .ok [("Holidays", AnnPayload.viz "vizdata")] := by
  have h := annotation_merge_last_wins ctxBase envHolidays qoHolidays
    [("Holidays", holNative)] (fun _ => AnnPayload.viz "vizdata") rfl
    (by
      intro l hl
      simp only [derivedLayers, qoHolidays, qoBase] at hl
      simp at hl
      rcases hl with ⟨hl | hl, hst⟩ <;> subst hl
      · rcases hst with h | h <;> simp [layerNativeHol] at h
      · rfl)
  exact h.1

lemma cachePhase_cases (ctx : QueryContext) (env : Env) :
    cachePhase ctx env = baseLoadOut ∨
    (∃ cv, cacheAttempted ctx env = true ∧
      env.data_cache_get (env.query_cache_key.getD "") = some cv ∧
      cachePhase ctx env = loadEntry cv) := by
  unfold cachePhase
  by_cases hc : cacheAttempted ctx env
  · rw [if_pos hc]
    cases hg : env.data_cache_get (env.query_cache_key.getD "") with
    | none => left; rfl
    | some cv => right; exact ⟨cv, hc, rfl, rfl⟩
  · rw [if_neg hc]
    left; rfl

lemma loadEntry_cache_value (cv : CacheEntry) :
    (loadEntry cv).cache_value = some cv := by
  by_cases h1 : cv.keys.isEmpty <;>
    by_cases h2 : "df" ∈ cv.keys <;>
      by_cases h3 : "query" ∈ cv.keys <;>
        simp [loadEntry, h1, h2, h3, baseLoadOut]

lemma loadEntry_loaded_status (cv : CacheEntry)
    (h : (loadEntry cv).is_loaded = true) :
    (loadEntry cv).status = some QueryStatus.success := by
  by_cases h1 : cv.keys.isEmpty <;>
    by_cases h2 : "df" ∈ cv.keys <;>
      by_cases h3 : "query" ∈ cv.keys <;>
        simp [loadEntry, h1, h2, h3, baseLoadOut] at h ⊢

lemma loadEntry_not_loaded (cv : CacheEntry)
    (h : "df" ∉ cv.keys ∨ "query" ∉ cv.keys) :
    (loadEntry cv).is_loaded = false := by
  by_cases h1 : cv.keys.isEmpty <;>
    by_cases h2 : "df" ∈ cv.keys <;>
      by_cases h3 : "query" ∈ cv.keys <;>
        first
          | (simp [loadEntry, h1, h2, h3, baseLoadOut]; done)
          | (rcases h with h | h; exacts [absurd h2 h, absurd h3 h])

lemma cachePhase_cached_key (ctx : QueryContext) (env : Env)
    (h : (cachePhase ctx env).cache_value.isSome = true) :
    env.query_cache_key ≠ none := by
  rcases cachePhase_cases ctx env with hb | ⟨cv, hc, hg, he⟩
  · rw [hb] at h; simp [baseLoadOut] at h
  · simp only [cacheAttempted, Bool.and_eq_true] at hc
    intro hnone
    rw [hnone] at hc
    simp [optStrTruthy] at hc

lemma cachePhase_loaded_status (ctx : QueryContext) (env : Env)
    (h : (cachePhase ctx env).is_loaded = true) :
    (cachePhase ctx env).status = some QueryStatus.success := by
  rcases cachePhase_cases ctx env with hb | ⟨cv, hc, hg, he⟩
  · rw [hb] at h; simp [baseLoadOut] at h
  · rw [he] at h ⊢
    exact loadEntry_loaded_status cv h

lemma finishPayload_ok_inv (ctx : QueryContext) (env : Env)
    (c : CacheLoadOut) (f : FetchOut) (revs : List Event) (E : Envelope)
    (hE : (finishPayload ctx env c f revs).1 = .ok E) :
    E.cache_key = env.query_cache_key ∧ E.is_cached = c.cache_value.isSome ∧
      E.error = f.error_message ∧ E.status = f.status ∧
      cachedDttmOf c = .ok E.cached_dttm ∧ E.df = f.df ∧
      E.annotation_data = f.annotation_data ∧
      E.stacktrace = f.stacktrace ∧ E.rowcount = f.df.nrows := by
  cases hct : cache_timeout ctx env with
  | error e =>
      exfalso
      by_cases hw : writeCondB env c f
      · simp [finishPayload, hw, hct] at hE
      · cases hd : cachedDttmOf c <;>
          simp [finishPayload, hw, hct, hd] at hE
  | ok t =>
      cases hd : cachedDttmOf c with
      | error e =>
          rw [finishPayload_dttm_error ctx env c f revs t e hct hd] at hE
          cases hE
      | ok d =>
          rw [finishPayload_fst_ok ctx env c f revs d t hd hct] at hE
          obtain rfl := (Except.ok.inj hE).symm
          exact ⟨rfl, rfl, rfl, rfl, rfl, rfl, rfl, rfl, rfl⟩

lemma get_query_result_ok_inv (ctx : QueryContext) (env : Env)
    (query_obj : QueryObject) (qr : DSResult) (evs : List Event)
    (hq : get_query_result ctx env query_obj = (.ok qr, evs)) :
    ∃ res0, ctx.datasource.query query_obj = .ok res0 ∧
      res0.status = qr.status ∧ res0.error_message = qr.error_message ∧
      res0.query = qr.query := by
  unfold get_query_result at hq
  cases hds : ctx.datasource.query query_obj with
  | error e => rw [hds] at hq; cases hq
  | ok res =>
      rw [hds] at hq
      simp only [enforce_numerical_metrics, if_true] at hq
      refine ⟨res, rfl, ?_⟩
      by_cases he : res.df.isEmpty
      · rw [if_pos he] at hq
        have h1 := congrArg Prod.fst hq
        obtain rfl := (Except.ok.inj h1).symm
        exact ⟨rfl, rfl, rfl⟩
      · rw [if_neg he] at hq
        split at hq
        · cases congrArg Prod.fst hq
        · split at hq
          · cases congrArg Prod.fst hq
          · have h1 := congrArg Prod.fst hq
            obtain rfl := (Except.ok.inj h1).symm
            exact ⟨rfl, rfl, rfl⟩

/-- C9 counterexample setup: a datasource that reports status FAILED with a
null error message. -/
def dsFailedNoMsg : Datasource :=
  { dsBase with
    query := fun _ =>
      .ok { df := emptyDataFrame, query := "SELECT 1", status := .failed,
            error_message := none } }

/-- Context over the FAILED-with-no-message datasource. -/
def ctxFailedNoMsg : QueryContext :=
  { datasource := dsFailedNoMsg, force := false, custom_cache_timeout := none }

/-- C9 counterexample: the concrete run returns an envelope with status
FAILED and a null error field, falsifying the claimed invariant for
envelopes whose FAILED status comes directly from the datasource
response. -/
theorem status_failed_null_error_counterexample :
    ((get_df_payload ctxFailedNoMsg envBase qoBase false).1.map
        (fun E => (E.status, E.error)))
      = .ok (some QueryStatus.failed, none) := rfl

/-- C9 (amended): every envelope satisfies `is_cached → cache_key` non-null
unconditionally, and `status = FAILED → error` non-null provided the
datasource supplies a non-null error message whenever it itself reports a
FAILED status (FAILED statuses arising from exceptions always carry an
error message). -/
theorem envelope_invariants
    (ctx : QueryContext) (env : Env) (query_obj : QueryObject) (fc : Bool)
    (hds : ∀ res, ctx.datasource.query query_obj = .ok res →
        res.status = .failed → res.error_message ≠ none) :
    ∀ E, (get_df_payload ctx env query_obj fc).1 = .ok E →
      (E.status = some .failed → E.error ≠ none) ∧
      (E.is_cached = true → E.cache_key ≠ none) := by
  intro E hE
  by_cases hload : (cachePhase ctx env).is_loaded = true
  · rw [get_df_payload_loaded ctx env query_obj fc hload] at hE
    obtain ⟨hck, hic, herr, hst, -⟩ := finishPayload_ok_inv _ _ _ _ _ _ hE
    constructor
    · intro hfail
      rw [hst] at hfail
      simp only [hitOut] at hfail
      rw [cachePhase_loaded_status ctx env hload] at hfail
      cases hfail
    · intro hic2
      rw [hck]
      exact cachePhase_cached_key ctx env (by rw [← hic]; exact hic2)
  · have hload' : (cachePhase ctx env).is_loaded = false := by
      simpa using hload
    cases fc with
    | true =>
        rw [get_df_payload_forced_miss ctx env query_obj hload'] at hE
        cases hE
    | false =>
        rw [get_df_payload_not_forced ctx env query_obj hload'] at hE
        obtain ⟨hck, hic, herr, hst, -⟩ := finishPayload_ok_inv _ _ _ _ _ _ hE
        constructor
        · intro hfail
          rw [herr]
          rw [hst] at hfail
          by_cases hinv : invalidColumns ctx env query_obj = []
          · rcases hq : get_query_result ctx env query_obj with ⟨res, evs⟩
            cases res with
            | error e =>
                rw [fetchTry_gqr_error ctx env query_obj _ e evs hinv hq]
                exact exceptHandler_error_ne_none env e none _ _ _ _
            | ok qr =>
                cases ha : get_annotation_data ctx env query_obj with
                | error e =>
                    rw [fetchTry_gad_error ctx env query_obj _ qr evs e hinv
                      hq ha]
                    exact exceptHandler_error_ne_none env e qr.error_message
                      _ _ _ _
                | ok a =>
                    rw [fetchTry_ok ctx env query_obj _ qr evs a hinv hq ha]
                    rw [fetchTry_ok ctx env query_obj _ qr evs a hinv hq ha]
                      at hfail
                    simp only at hfail ⊢
                    have hqs : qr.status = .failed := Option.some.inj hfail
                    obtain ⟨res0, hres0, hst0, hem0, -⟩ :=
                      get_query_result_ok_inv ctx env query_obj qr evs hq
                    rw [← hem0]
                    exact hds res0 hres0 (hst0.trans hqs)
          · rw [fetchTry_invalid ctx env query_obj _ hinv]
            simp
        · intro hic2
          rw [hck]
          exact cachePhase_cached_key ctx env (by rw [← hic]; exact hic2)

/-- A stale cache entry holding only a "dttm" key. -/
def cvDttmOnly : CacheEntry :=
  { keys := ["dttm"], df := emptyDataFrame, query := "",
    annotation_data := [], dttm := 5 }

/-- Environment whose cache returns the stale dttm-only entry. -/
def envCacheStale : Env :=
  { envBase with data_cache_get := fun _ => some cvDttmOnly }

/-- The envelope produced on the stale-entry fixtures (entry found but
malformed, data refetched; `is_cached` is true). -/
def envStaleEnvelope : Envelope :=
  { cache_key := some "key1", cached_dttm := some 5, cache_timeout := 300,
    df := emptyDataFrame, annotation_data := [], error := none,
    is_cached := true, query := "SELECT 1", status := some .success,
    stacktrace := none, rowcount := 0 }

/-- C9 witness: on the stale-entry fixtures the amended invariant applies
and yields a non-null cache key for the `is_cached` envelope. -/
theorem envelope_invariants_witness :
    envStaleEnvelope.cache_key ≠ none :=
  (envelope_invariants ctxBase envCacheStale qoBase false
      (by
        intro res hres hfail
        cases Except.ok.inj hres
        exact absurd hfail (by decide))
      envStaleEnvelope rfl).2 rfl

lemma cachePhase_cache_value_eq (ctx : QueryContext) (env : Env) :
    (cachePhase ctx env).cache_value
      = if cacheAttempted ctx env then
          env.data_cache_get (env.query_cache_key.getD "")
        else none := by
  unfold cachePhase
  by_cases hc : cacheAttempted ctx env
  · rw [if_pos hc, if_pos hc]
    cases hg : env.data_cache_get (env.query_cache_key.getD "") with
    | none => rfl
    | some cv => exact loadEntry_cache_value cv
  · rw [if_neg hc, if_neg hc]
    rfl

lemma gqr_events_have_dsQuery (ctx : QueryContext) (env : Env)
    (query_obj : QueryObject) :
    Event.dsQuery ∈ (get_query_result ctx env query_obj).2 := by
  cases hq : ctx.datasource.query query_obj with
  | error e => simp [get_query_result, hq]
  | ok res =>
      by_cases he : res.df.isEmpty
      · simp [get_query_result, hq, he]
      · cases hn : env.normalize_dttm_col res.df (timestampFormat ctx query_obj)
            ctx.datasource.offset query_obj.time_shift with
        | error e => simp [get_query_result, hq, he, hn]
        | ok df1 =>
            cases hp : query_obj.exec_post_processing
                (env.replace_inf_nan (df_metrics_to_num env df1 query_obj)) with
            | error e =>
                simp [get_query_result, hq, he, hn,
                  enforce_numerical_metrics, hp]
            | ok df4 =>
                simp [get_query_result, hq, he, hn,
                  enforce_numerical_metrics, hp]

lemma finishPayload_trace_superset (ctx : QueryContext) (env : Env)
    (c : CacheLoadOut) (f : FetchOut) (revs : List Event) :
    ∀ ev ∈ f.events, ev ∈ (finishPayload ctx env c f revs).2 := by
  intro ev hev
  by_cases hw : writeCondB env c f <;>
    cases hct : cache_timeout ctx env <;>
      cases hd : cachedDttmOf c <;>
        simp [finishPayload, hw, hct, hd, hev]

lemma fetchTry_events_have_dsQuery (ctx : QueryContext) (env : Env)
    (query_obj : QueryObject) (c : CacheLoadOut)
    (hinv : invalidColumns ctx env query_obj = []) :
    Event.dsQuery ∈ (fetchTry ctx env query_obj c).events := by
  rcases hq : get_query_result ctx env query_obj with ⟨res, evs⟩
  have hds : Event.dsQuery ∈ evs := by
    have := gqr_events_have_dsQuery ctx env query_obj
    rw [hq] at this
    exact this
  cases res with
  | error e =>
      rw [fetchTry_gqr_error ctx env query_obj c e evs hinv hq,
        exceptHandler_events]
      exact hds
  | ok qr =>
      cases ha : get_annotation_data ctx env query_obj with
      | error e =>
          rw [fetchTry_gad_error ctx env query_obj c qr evs e hinv hq ha,
            exceptHandler_events]
          exact List.mem_append.mpr (Or.inl hds)
      | ok a =>
          rw [fetchTry_ok ctx env query_obj c qr evs a hinv hq ha]
          exact List.mem_append.mpr (Or.inl hds)

/-- C10: for calls without force, `is_cached` is true exactly when the
cache lookup found an entry under the derived key; a malformed entry
(missing "df" or "query") is treated as a miss, so the data is refetched
from the source, while the envelope still reads `cached_dttm` from the
stale entry and reports `is_cached = true`; and an entry lacking "dttm"
makes envelope construction itself raise an uncaught `KeyError`. -/
theorem stale_cache_entry_behavior
    (ctx : QueryContext) (env : Env) (query_obj : QueryObject)
    (_hforce : ctx.force = false) :
    (∀ E, (get_df_payload ctx env query_obj false).1 = .ok E →
      (E.is_cached = true ↔
        (cacheAttempted ctx env = true ∧
          (env.data_cache_get (env.query_cache_key.getD "")).isSome = true)))
    ∧ (∀ cv, cacheAttempted ctx env = true →
        env.data_cache_get (env.query_cache_key.getD "") = some cv →
        ("df" ∉ cv.keys ∨ "query" ∉ cv.keys) →
        (cachePhase ctx env).is_loaded = false ∧
        (invalidColumns ctx env query_obj = [] →
          Event.dsQuery ∈ (get_df_payload ctx env query_obj false).2) ∧
        ("dttm" ∈ cv.keys →
          ∀ E, (get_df_payload ctx env query_obj false).1 = .ok E →
            E.is_cached = true ∧ E.cached_dttm = some cv.dttm))
    ∧ (∀ cv t, cacheAttempted ctx env = true →
        env.data_cache_get (env.query_cache_key.getD "") = some cv →
        "dttm" ∉ cv.keys →
        cache_timeout ctx env = .ok t →
        (get_df_payload ctx env query_obj false).1
          = .error (.keyError "dttm")) := by
  refine ⟨?_, ?_, ?_⟩
  · intro E hE
    have hEfields : E.is_cached = (cachePhase ctx env).cache_value.isSome := by
      by_cases hload : (cachePhase ctx env).is_loaded = true
      · rw [get_df_payload_loaded ctx env query_obj false hload] at hE
        exact (finishPayload_ok_inv _ _ _ _ _ _ hE).2.1
      · rw [get_df_payload_not_forced ctx env query_obj
          (by simpa using hload)] at hE
        exact (finishPayload_ok_inv _ _ _ _ _ _ hE).2.1
    rw [hEfields, cachePhase_cache_value_eq]
    by_cases hc : cacheAttempted ctx env
    · rw [if_pos hc]
      simp [hc]
    · rw [if_neg hc]
      simp [hc]
  · intro cv hc hg hmal
    have hphase : cachePhase ctx env = loadEntry cv := by
      unfold cachePhase
      rw [if_pos hc, hg]
    have hload : (cachePhase ctx env).is_loaded = false := by
      rw [hphase]
      exact loadEntry_not_loaded cv hmal
    refine ⟨hload, ?_, ?_⟩
    · intro hinv
      rw [get_df_payload_not_forced ctx env query_obj hload]
      exact finishPayload_trace_superset ctx env _ _ _ _
        (fetchTry_events_have_dsQuery ctx env query_obj _ hinv)
    · intro hdttm E hE
      rw [get_df_payload_not_forced ctx env query_obj hload] at hE
      obtain ⟨-, hic, -, -, hdv, -⟩ := finishPayload_ok_inv _ _ _ _ _ _ hE
      have hcv : cachedDttmOf (cachePhase ctx env) = .ok (some cv.dttm) := by
        unfold cachedDttmOf
        rw [cachePhase_cache_value_eq, if_pos hc, hg]
        simp [hdttm]
      rw [hcv] at hdv
      refine ⟨?_, (Except.ok.inj hdv).symm⟩
      rw [hic, cachePhase_cache_value_eq, if_pos hc, hg]
      rfl
  · intro cv t hc hg hdttm ht
    have hdv : cachedDttmOf (cachePhase ctx env)
        = .error (.keyError "dttm") := by
      unfold cachedDttmOf
      rw [cachePhase_cache_value_eq, if_pos hc, hg]
      simp [hdttm]
    by_cases hload : (cachePhase ctx env).is_loaded = true
    · rw [get_df_payload_loaded ctx env query_obj false hload]
      exact finishPayload_dttm_error ctx env _ _ _ t _ ht hdv
    · rw [get_df_payload_not_forced ctx env query_obj
        (by simpa using hload)]
      exact finishPayload_dttm_error ctx env _ _ _ t _ ht hdv

/-- A cache entry with table and query but no stored timestamp. -/
def cvNoDttm : CacheEntry :=
  { keys := ["df", "query"], df := emptyDataFrame, query := "q0",
    annotation_data := [], dttm := 0 }

/-- Environment whose cache returns the dttm-less entry. -/
def envCacheNoDttm : Env :=
  { envBase with data_cache_get := fun _ => some cvNoDttm }

/-- C10 witness: on the dttm-less entry fixtures the call raises an
uncaught `KeyError` for "dttm" during envelope construction. -/
theorem stale_cache_witness :
    (get_df_payload ctxBase envCacheNoDttm qoBase false).1
      = .error (.keyError "dttm") :=
  (stale_cache_entry_behavior ctxBase envCacheNoDttm qoBase rfl).2.2
    cvNoDttm 300 rfl rfl (by decide) rfl
